import Mathlib

/-! ProbablyFineOS kernel panic handler (kernel/panic.c)

A shallow embedding of `exception_handler` and of the data it uses, followed by
the properties of the fault report established on it.

The handler is straight-line C that drives four external routines
(`vga_set_color`, `vga_puts`, `vga_print_hex`, `freeze`), reads the register
frame through a pointer, reads the `exception_names` table and, for a page
fault, reads the control register CR2.  The embedding threads an explicit
machine state through the body: every external call is appended to a log, the
two kinds of read are counted, and a call of `freeze` ends execution.
Values of type `uint32_t` are natural numbers; the body only compares, masks
and shifts right, so no operation can leave the 32-bit range.
-/

namespace Panic

/-! ## Data model -/

/-- The constant `VGA_RED` of panic.c. -/
def VGA_RED : Nat := 0x04

/-- The constant `VGA_WHITE` of panic.c. -/
def VGA_WHITE : Nat := 0x0F

/-- The constant `VGA_LRED` of panic.c. -/
def VGA_LRED : Nat := 0x0C

/-- The register frame `struct registers`, fields in declaration order. -/
structure registers where
  gs : Nat
  fs : Nat
  es : Nat
  ds : Nat
  edi : Nat
  esi : Nat
  ebp : Nat
  esp : Nat
  ebx : Nat
  edx : Nat
  ecx : Nat
  eax : Nat
deriving DecidableEq, Repr

/-- The frame held by twelve contiguous 32-bit words: the fields of
`struct registers` all have type `uint32_t`, so the field declared at position
`i` is word `i`. -/
def registers.ofWords (w : Nat → Nat) : registers :=
  { gs := w 0, fs := w 1, es := w 2, ds := w 3,
    edi := w 4, esi := w 5, ebp := w 6, esp := w 7,
    ebx := w 8, edx := w 9, ecx := w 10, eax := w 11 }

/-- The table `exception_names`. -/
def exception_names : List String :=
  [ "Divide by Zero",
    "Debug",
    "Non-Maskable Interrupt",
    "Breakpoint",
    "Overflow",
    "Bound Range Exceeded",
    "Invalid Opcode",
    "Device Not Available",
    "Double Fault",
    "Coprocessor Segment Overrun",
    "Invalid TSS",
    "Segment Not Present",
    "Stack-Segment Fault",
    "General Protection Fault",
    "Page Fault",
    "(Reserved)",
    "x87 FPU Error",
    "Alignment Check",
    "Machine Check",
    "SIMD Floating-Point Exception",
    "(Reserved)", "(Reserved)", "(Reserved)", "(Reserved)",
    "(Reserved)", "(Reserved)", "(Reserved)", "(Reserved)",
    "(Reserved)", "(Reserved)", "(Reserved)", "(Reserved)" ]

/-- One call of an external routine declared at the top of panic.c. -/
inductive Call where
  | vga_set_color (attr : Nat)
  | vga_puts (str : String)
  | vga_print_hex (value : Nat)
  | freeze
deriving DecidableEq, Repr

/-- The machine state the handler runs on.
* `log`: the external calls made so far, oldest first;
* `cr2`: the content of the fault-address register CR2;
* `cr2_reads`: how many times CR2 has been read;
* `name_reads`: the indices at which `exception_names` has been read, oldest first;
* `frames`: the memory holding register frames, by address. -/
structure Machine where
  log : List Call
  cr2 : Nat
  cr2_reads : Nat
  name_reads : List Nat
  frames : Nat → registers

/-- How a piece of code ends: it returns to its caller with a value, it stops
the processor for good, or it has read outside an array (undefined). -/
inductive Outcome (α : Type) where
  | returned (val : α) (m : Machine)
  | halted (m : Machine)
  | out_of_bounds (m : Machine)

/-- The machine state an execution ends in. -/
def Outcome.machine {α : Type} : Outcome α → Machine
  | .returned _ m => m
  | .halted m => m
  | .out_of_bounds m => m

/-- Code: a function of the machine state. -/
def Exec (α : Type) : Type := Machine → Outcome α

/-- Sequencing: the second part runs only when the first returns. -/
def Exec.bind {α β : Type} (x : Exec α) (f : α → Exec β) : Exec β := fun m =>
  match x m with
  | .returned a m1 => f a m1
  | .halted m1 => .halted m1
  | .out_of_bounds m1 => .out_of_bounds m1

instance : Monad Exec where
  pure a := fun m => .returned a m
  bind := Exec.bind

/-! ## External routines and reads -/

/-- An external call that returns: it is appended to the log. -/
def call (c : Call) : Exec Unit := fun m =>
  .returned () { m with log := m.log ++ [c] }

/-- The routine `vga_set_color` (from vga.asm), recorded as a call; the
parameter is a `uint8_t`. -/
def vga_set_color (attr : Nat) : Exec Unit := call (.vga_set_color (attr % 256))

/-- The routine `vga_puts` (from vga.asm), recorded as a call. -/
def vga_puts (str : String) : Exec Unit := call (.vga_puts str)

/-- The routine `vga_print_hex` (from vga.asm), recorded as a call. -/
def vga_print_hex (value : Nat) : Exec Unit := call (.vga_print_hex value)

/-- Modelled from the spec: the routine `freeze` is defined in vga.asm and only
declared in panic.c. The spec describes Halt as an irreversible operation that
disables interrupts and parks the processor, after which no code executes
(panic.c: "cli + hlt loop"): the call is logged and execution ends. -/
def freeze : Exec Unit := fun m =>
  .halted { m with log := m.log ++ [Call.freeze] }

/-- The statement `mov %0, cr2`: one read of the fault-address register. -/
def read_cr2 : Exec Nat := fun m =>
  .returned m.cr2 { m with cr2_reads := m.cr2_reads + 1 }

/-- The expression `exception_names[i]`: one read of the table, undefined
outside it. -/
def read_exception_names (i : Nat) : Exec String := fun m =>
  match exception_names[i]? with
  | some name => .returned name { m with name_reads := m.name_reads ++ [i] }
  | none => .out_of_bounds { m with name_reads := m.name_reads ++ [i] }

/-- The expression `regs->field`: a read of one field of the frame at `regs`. -/
def load (regs : Nat) (field : registers → Nat) : Exec Nat := fun m =>
  .returned (field (m.frames regs)) m

/-! ## The code of panic.c -/

/-- The function `print_hex_value`. -/
def print_hex_value (label : String) (value : Nat) : Exec Unit := do
  vga_puts label
  vga_print_hex value
  vga_puts "\n"

/-- The function `exception_handler`. -/
def exception_handler (exc_num error_code eip regs : Nat) : Exec Unit := do
  vga_set_color ((VGA_RED <<< 4) ||| VGA_WHITE)
  vga_puts "\n*** KERNEL PANIC ***\n"
  vga_puts "Exception: "
  (if exc_num < 32 then do
    vga_puts (← read_exception_names exc_num)
  else
    vga_puts "Unknown")
  vga_puts "\n\n"
  print_hex_value "Exception Number: 0x" exc_num
  print_hex_value "Error Code:       0x" error_code
  print_hex_value "EIP:              0x" eip
  (if exc_num = 14 then do
    let cr2 ← read_cr2
    print_hex_value "CR2 (fault addr): 0x" cr2
    vga_puts "Page fault: "
    (if error_code &&& 0x01 ≠ 0 then vga_puts "Present "
    else vga_puts "Not-present ")
    (if error_code &&& 0x02 ≠ 0 then vga_puts "Write "
    else vga_puts "Read ")
    (if error_code &&& 0x04 ≠ 0 then vga_puts "User-mode"
    else vga_puts "Kernel-mode")
    vga_puts "\n"
  else
    pure ())
  vga_puts "\nRegisters:\n"
  print_hex_value "  EAX=0x" (← load regs registers.eax)
  print_hex_value "  EBX=0x" (← load regs registers.ebx)
  print_hex_value "  ECX=0x" (← load regs registers.ecx)
  print_hex_value "  EDX=0x" (← load regs registers.edx)
  print_hex_value "  ESI=0x" (← load regs registers.esi)
  print_hex_value "  EDI=0x" (← load regs registers.edi)
  print_hex_value "  EBP=0x" (← load regs registers.ebp)
  print_hex_value "  ESP=0x" (← load regs registers.esp)
  vga_puts "\nSegments:\n"
  print_hex_value "  CS:  0x" (eip >>> 16)
  print_hex_value "  DS:  0x" (← load regs registers.ds)
  print_hex_value "  ES:  0x" (← load regs registers.es)
  print_hex_value "  FS:  0x" (← load regs registers.fs)
  print_hex_value "  GS:  0x" (← load regs registers.gs)
  vga_puts "\nSystem halted.\n"
  freeze

/-! ## Observing a run -/

/-- A machine that has made no call and no read yet. -/
def Machine.start (cr2 : Nat) (frames : Nat → registers) : Machine :=
  { log := [], cr2 := cr2, cr2_reads := 0, name_reads := [], frames := frames }

/-- The external calls the handler makes when it is run on `m`, oldest first:
what the run adds to the log. -/
def calls (exc_num error_code eip regs : Nat) (m : Machine) : List Call :=
  ((exception_handler exc_num error_code eip regs m).machine.log).drop m.log.length

/-- The number of reads of CR2 the handler makes when it is run on `m`. -/
def cr2_reads (exc_num error_code eip regs : Nat) (m : Machine) : Nat :=
  (exception_handler exc_num error_code eip regs m).machine.cr2_reads - m.cr2_reads

/-- The indices at which the handler reads `exception_names` when it is run on `m`. -/
def name_reads (exc_num error_code eip regs : Nat) (m : Machine) : List Nat :=
  ((exception_handler exc_num error_code eip regs m).machine.name_reads).drop m.name_reads.length

/-! ## The text of a report -/

/-- Modelled from the spec: the digit `vga_print_hex` (defined in vga.asm, only
declared in panic.c) writes for a value below 16; the reports of the spec show
upper-case digits ("0xDEADBEEF"). -/
def hex_digit (d : Nat) : Char :=
  ['0', '1', '2', '3', '4', '5', '6', '7', '8', '9', 'A', 'B', 'C', 'D', 'E', 'F'].getD d '0'

/-- Modelled from the spec: the text `vga_print_hex` (defined in vga.asm, only
declared in panic.c) writes for a 32-bit value: "emits value as hexadecimal
digits, no prefix", eight digits wide as in the reports of the spec
("0x00000000", "0x00100234"), most significant digit first. -/
def hex8 (value : Nat) : String :=
  String.mk ((List.range 8).reverse.map fun i => hex_digit (value / 16 ^ i % 16))

/-- The text one call puts on the screen. -/
def Call.text : Call → String
  | .vga_puts str => str
  | .vga_print_hex value => hex8 value
  | .vga_set_color _ => ""
  | .freeze => ""

/-- The text a sequence of calls puts on the screen. -/
def render (cs : List Call) : String :=
  String.join (cs.map Call.text)

/-- The values a sequence of calls hands to `vga_print_hex`, in order. -/
def hex_values : List Call → List Nat
  | [] => []
  | .vga_print_hex value :: cs => value :: hex_values cs
  | _ :: cs => hex_values cs

/-- The lines of a text: the pieces between its line breaks. A text that ends
in a line break has an empty last line. -/
def split_lines : List Char → List (List Char)
  | [] => [[]]
  | c :: cs =>
    if c = '\n' then [] :: split_lines cs
    else match split_lines cs with
      | [] => [[c]]
      | l :: ls => (c :: l) :: ls

/-- The lines of a text, as strings. -/
def text_lines (text : String) : List String :=
  (split_lines text.data).map String.mk

/-- The text made of the given lines, each ended by a line break. -/
def unlines (ls : List String) : String :=
  String.join (ls.map fun l => l ++ "\n")

/-- The report text layout of the spec (section 6), as a list of lines: banner,
name, blank, the three detail lines, the lines of the page-fault block, blank,
"Registers:", the lines of the register dump, blank, "Segments:", the five
segment lines, blank, "System halted.". The lines of the page-fault block and of
the register dump are parameters; hex values are written by `hex8`. -/
def layout_lines (name : String) (exc_num error_code eip : Nat)
    (page_fault_lines register_lines : List String) (cs ds es fs gs : Nat) : List String :=
  ["*** KERNEL PANIC ***",
   "Exception: " ++ name,
   "",
   "Exception Number: 0x" ++ hex8 exc_num,
   "Error Code:       0x" ++ hex8 error_code,
   "EIP:              0x" ++ hex8 eip]
  ++ page_fault_lines
  ++ ["", "Registers:"]
  ++ register_lines
  ++ ["", "Segments:",
      "  CS:  0x" ++ hex8 cs,
      "  DS:  0x" ++ hex8 ds,
      "  ES:  0x" ++ hex8 es,
      "  FS:  0x" ++ hex8 fs,
      "  GS:  0x" ++ hex8 gs,
      "", "System halted."]

/-- The register dump as the layout of the spec (section 6) shows it: two lines
holding four registers each, EAX EBX ECX EDX and then ESI EDI EBP ESP. -/
def layout_register_lines (r : registers) : List String :=
  ["  EAX=0x" ++ hex8 r.eax ++ "  EBX=0x" ++ hex8 r.ebx
      ++ "  ECX=0x" ++ hex8 r.ecx ++ "  EDX=0x" ++ hex8 r.edx,
   "  ESI=0x" ++ hex8 r.esi ++ "  EDI=0x" ++ hex8 r.edi
      ++ "  EBP=0x" ++ hex8 r.ebp ++ "  ESP=0x" ++ hex8 r.esp]

/-! ## The log of a run in closed form

The body of the handler is straight-line code, so the calls of a run can be
written out. The lists below are proof devices: each is shown to be what
`exception_handler` produces (`exception_handler_eq`), and the properties
further down are stated about `exception_handler` and `calls`. -/

/-- The calls of one `print_hex_value label value`. -/
def hex_line (label : String) (value : Nat) : List Call :=
  [.vga_puts label, .vga_print_hex value, .vga_puts "\n"]

/-- The calls up to and including the line of the faulting EIP. -/
def report_head (exc_num error_code eip : Nat) : List Call :=
  [.vga_set_color 0x4F, .vga_puts "\n*** KERNEL PANIC ***\n", .vga_puts "Exception: ",
   .vga_puts (if exc_num < 32 then (exception_names[exc_num]?).getD "" else "Unknown"),
   .vga_puts "\n\n"]
  ++ hex_line "Exception Number: 0x" exc_num
  ++ hex_line "Error Code:       0x" error_code
  ++ hex_line "EIP:              0x" eip

/-- The calls of the page-fault branch. -/
def report_page_fault (error_code cr2 : Nat) : List Call :=
  hex_line "CR2 (fault addr): 0x" cr2
  ++ [.vga_puts "Page fault: ",
      .vga_puts (if error_code &&& 0x01 ≠ 0 then "Present " else "Not-present "),
      .vga_puts (if error_code &&& 0x02 ≠ 0 then "Write " else "Read "),
      .vga_puts (if error_code &&& 0x04 ≠ 0 then "User-mode" else "Kernel-mode"),
      .vga_puts "\n"]

/-- The calls from the register dump to the end. -/
def report_tail (eip : Nat) (r : registers) : List Call :=
  [.vga_puts "\nRegisters:\n"]
  ++ hex_line "  EAX=0x" r.eax ++ hex_line "  EBX=0x" r.ebx
  ++ hex_line "  ECX=0x" r.ecx ++ hex_line "  EDX=0x" r.edx
  ++ hex_line "  ESI=0x" r.esi ++ hex_line "  EDI=0x" r.edi
  ++ hex_line "  EBP=0x" r.ebp ++ hex_line "  ESP=0x" r.esp
  ++ [.vga_puts "\nSegments:\n"]
  ++ hex_line "  CS:  0x" (eip >>> 16)
  ++ hex_line "  DS:  0x" r.ds ++ hex_line "  ES:  0x" r.es
  ++ hex_line "  FS:  0x" r.fs ++ hex_line "  GS:  0x" r.gs
  ++ [.vga_puts "\nSystem halted.\n", .freeze]

/-- The calls of a whole run. -/
def report (exc_num error_code eip cr2 : Nat) (r : registers) : List Call :=
  report_head exc_num error_code eip
  ++ (if exc_num = 14 then report_page_fault error_code cr2 else [])
  ++ report_tail eip r

/-- The name a report shows for an exception number. -/
def report_name (exc_num : Nat) : String :=
  if exc_num < 32 then (exception_names[exc_num]?).getD "" else "Unknown"

/-- The lines of the text of a whole run, without the empty first and last
ones: the layout with the two lines of the page-fault branch and with one line
for each register. -/
def report_lines (exc_num error_code eip cr2 : Nat) (r : registers) : List String :=
  layout_lines (report_name exc_num) exc_num error_code eip
    (if exc_num = 14 then
      ["CR2 (fault addr): 0x" ++ hex8 cr2,
       "Page fault: " ++ (if error_code.testBit 0 = true then "Present " else "Not-present ")
         ++ (if error_code.testBit 1 = true then "Write " else "Read ")
         ++ (if error_code.testBit 2 = true then "User-mode" else "Kernel-mode")]
     else [])
    ["  EAX=0x" ++ hex8 r.eax, "  EBX=0x" ++ hex8 r.ebx,
     "  ECX=0x" ++ hex8 r.ecx, "  EDX=0x" ++ hex8 r.edx,
     "  ESI=0x" ++ hex8 r.esi, "  EDI=0x" ++ hex8 r.edi,
     "  EBP=0x" ++ hex8 r.ebp, "  ESP=0x" ++ hex8 r.esp]
    (eip / 65536) r.ds r.es r.fs r.gs

/-! ## Helper lemmas -/

theorem exception_names_length : exception_names.length = 32 := by decide

theorem exception_names_lookup (i : Nat) (h : i < 32) :
    ∃ name, exception_names[i]? = some name := by
  have hlen : i < exception_names.length := by rw [exception_names_length]; exact h
  exact ⟨exception_names[i], List.getElem?_eq_getElem hlen⟩

theorem bind_run {α β : Type} (x : Exec α) (f : α → Exec β) :
    (x >>= f) = Exec.bind x f := rfl

theorem bind_assoc_run {α β γ : Type} (x : Exec α) (g : α → Exec β) (f : β → Exec γ)
    (m : Machine) :
    Exec.bind (Exec.bind x g) f m = Exec.bind x (fun a => Exec.bind (g a) f) m := by
  simp only [Exec.bind]
  cases x m <;> rfl

theorem pure_bind_run {α β : Type} (a : α) (f : α → Exec β) (m : Machine) :
    Exec.bind (pure a) f m = f a m := rfl

theorem puts_ite (c : Prop) [Decidable c] (a b : String) :
    (if c then call (.vga_puts a) else call (.vga_puts b))
      = call (.vga_puts (if c then a else b)) := by
  split <;> rfl

theorem call_bind_run {β : Type} (c : Call) (f : Unit → Exec β) (m : Machine) :
    Exec.bind (call c) f m = f () { m with log := m.log ++ [c] } := rfl

theorem load_bind_run {β : Type} (regs : Nat) (field : registers → Nat) (f : Nat → Exec β)
    (m : Machine) :
    Exec.bind (load regs field) f m = f (field (m.frames regs)) m := rfl

theorem read_cr2_bind_run {β : Type} (f : Nat → Exec β) (m : Machine) :
    Exec.bind read_cr2 f m = f m.cr2 { m with cr2_reads := m.cr2_reads + 1 } := rfl

theorem read_exception_names_bind_run {β : Type} (i : Nat) (name : String)
    (h : exception_names[i]? = some name) (f : String → Exec β) (m : Machine) :
    Exec.bind (read_exception_names i) f m
      = f name { m with name_reads := m.name_reads ++ [i] } := by
  simp only [Exec.bind, read_exception_names, h]

/-- Every run of the handler ends halted, with `report` added to the log, CR2
read once for a page fault, and the table read once for a number below 32. -/
theorem exception_handler_eq (exc_num error_code eip regs : Nat) (m : Machine) :
    exception_handler exc_num error_code eip regs m
      = .halted
          { log := m.log ++ report exc_num error_code eip m.cr2 (m.frames regs),
            cr2 := m.cr2,
            cr2_reads := m.cr2_reads + (if exc_num = 14 then 1 else 0),
            name_reads := m.name_reads ++ (if exc_num < 32 then [exc_num] else []),
            frames := m.frames } := by
  have hattr : (VGA_RED <<< 4 ||| VGA_WHITE) % 256 = 0x4F := by decide
  by_cases h32 : exc_num < 32
  · obtain ⟨name, hname⟩ := exception_names_lookup exc_num h32
    by_cases h14 : exc_num = 14
    · subst h14
      simp only [exception_handler, print_hex_value, vga_puts, vga_set_color, vga_print_hex,
        bind_run, puts_ite, bind_assoc_run, call_bind_run, load_bind_run, read_cr2_bind_run,
        read_exception_names_bind_run _ _ hname, hattr, if_true, h32, freeze]
      simp only [List.append_assoc, List.cons_append, List.nil_append]
      simp only [report, report_head, report_page_fault, report_tail, hex_line, hname, h32,
        if_true, Option.getD_some, List.append_assoc, List.cons_append, List.nil_append]
    · simp only [exception_handler, print_hex_value, vga_puts, vga_set_color, vga_print_hex,
        bind_run, bind_assoc_run, pure_bind_run, call_bind_run, load_bind_run,
        read_exception_names_bind_run _ _ hname, hattr, if_true, if_false, h14, h32, freeze]
      simp only [List.append_assoc, List.cons_append, List.nil_append]
      simp only [report, report_head, report_tail, hex_line, hname, h14, h32, if_true, if_false,
        Option.getD_some, List.append_assoc, List.cons_append, List.nil_append,
        List.append_nil, Nat.add_zero]
  · have h14 : exc_num ≠ 14 := by omega
    simp only [exception_handler, print_hex_value, vga_puts, vga_set_color, vga_print_hex,
      bind_run, bind_assoc_run, pure_bind_run, call_bind_run, load_bind_run, hattr,
      if_false, h14, h32, freeze]
    simp only [List.append_assoc, List.cons_append, List.nil_append]
    simp only [report, report_head, report_tail, hex_line, h14, h32, if_false,
      List.append_assoc, List.cons_append, List.nil_append, List.append_nil, Nat.add_zero]

theorem calls_eq (exc_num error_code eip regs : Nat) (m : Machine) :
    calls exc_num error_code eip regs m = report exc_num error_code eip m.cr2 (m.frames regs) := by
  simp [calls, exception_handler_eq, Outcome.machine]

theorem cr2_reads_eq (exc_num error_code eip regs : Nat) (m : Machine) :
    cr2_reads exc_num error_code eip regs m = if exc_num = 14 then 1 else 0 := by
  simp [cr2_reads, exception_handler_eq, Outcome.machine]

theorem name_reads_eq (exc_num error_code eip regs : Nat) (m : Machine) :
    name_reads exc_num error_code eip regs m = if exc_num < 32 then [exc_num] else [] := by
  simp [name_reads, exception_handler_eq, Outcome.machine]

end Panic

namespace Panic

/-! ## More helper lemmas -/

/-- No entry of the table is one of the labels of the report. -/
theorem exception_names_not_label :
    ∀ name ∈ exception_names,
      name ≠ "Exception: " ∧ name ≠ "CR2 (fault addr): 0x" ∧ name ≠ "Page fault: " := by
  decide

theorem name_not_label (i : Nat) (name : String) (h : exception_names[i]? = some name) :
    name ≠ "Exception: " ∧ name ≠ "CR2 (fault addr): 0x" ∧ name ≠ "Page fault: " :=
  exception_names_not_label name (List.getElem?_mem h)

/-- Masking with a single bit is non-zero exactly when that bit is set. -/
theorem and_two_pow_ne_zero (e k : Nat) : e &&& 2 ^ k ≠ 0 ↔ e.testBit k = true := by
  constructor
  · intro h
    by_contra hk
    apply h
    apply Nat.eq_of_testBit_eq
    intro i
    rw [Nat.testBit_and, Nat.testBit_two_pow, Nat.zero_testBit]
    by_cases hi : k = i
    · subst hi; simp [hk]
    · simp [hi]
  · intro h h0
    have := Nat.testBit_and e (2 ^ k) k
    rw [h0, Nat.zero_testBit, h, Nat.testBit_two_pow_self] at this
    exact Bool.noConfusion this

theorem and_one_ne_zero (e : Nat) : e &&& 1 ≠ 0 ↔ e.testBit 0 = true :=
  and_two_pow_ne_zero e 0

theorem and_two_ne_zero (e : Nat) : e &&& 2 ≠ 0 ↔ e.testBit 1 = true :=
  and_two_pow_ne_zero e 1

theorem and_four_ne_zero (e : Nat) : e &&& 4 ≠ 0 ↔ e.testBit 2 = true :=
  and_two_pow_ne_zero e 2

/-- The low three bits of a number determine its remainder modulo 8. -/
theorem mod_eight_of_testBit (a b : Nat) (h0 : a.testBit 0 = b.testBit 0)
    (h1 : a.testBit 1 = b.testBit 1) (h2 : a.testBit 2 = b.testBit 2) : a % 8 = b % 8 := by
  rw [Nat.testBit_to_div_mod, Nat.testBit_to_div_mod, decide_eq_decide] at h0 h1 h2
  omega

/-- The page-fault branch with its tests read as bits of the error code. -/
theorem report_page_fault_bits (error_code cr2 : Nat) :
    report_page_fault error_code cr2
      = [.vga_puts "CR2 (fault addr): 0x", .vga_print_hex cr2, .vga_puts "\n",
         .vga_puts "Page fault: ",
         .vga_puts (if error_code.testBit 0 = true then "Present " else "Not-present "),
         .vga_puts (if error_code.testBit 1 = true then "Write " else "Read "),
         .vga_puts (if error_code.testBit 2 = true then "User-mode" else "Kernel-mode"),
         .vga_puts "\n"] := by
  simp only [report_page_fault, hex_line, List.cons_append, List.nil_append,
    and_one_ne_zero, and_two_ne_zero, and_four_ne_zero]

/-- The label "Exception: " is written exactly once in a report. -/
theorem count_exception_label (exc_num error_code eip cr2 : Nat) (r : registers) :
    (report exc_num error_code eip cr2 r).count (.vga_puts "Exception: ") = 1 := by
  have htail : (report_tail eip r).count (.vga_puts "Exception: ") = 0 :=
    List.count_eq_zero.mpr (by simp [report_tail, hex_line])
  have hpf : (report_page_fault error_code cr2).count (.vga_puts "Exception: ") = 0 :=
    List.count_eq_zero.mpr (by
      rw [report_page_fault_bits]
      simp only [List.mem_cons, Call.vga_puts.injEq, List.mem_nil_iff, reduceCtorEq]
      split_ifs <;> simp)
  have hhead : (report_head exc_num error_code eip).count (.vga_puts "Exception: ") = 1 := by
    by_cases h32 : exc_num < 32
    · obtain ⟨name, hname⟩ := exception_names_lookup exc_num h32
      have hne := (name_not_label exc_num name hname).1
      simp [report_head, hex_line, List.count_cons, h32, hname, hne]
    · simp only [report_head, h32, if_false]
      rfl
  simp only [report, List.count_append, htail, hhead]
  split_ifs
  · rw [hpf]
  · rfl

/-- A label of the page-fault block is written nowhere outside that block. -/
theorem label_not_mem_outside (label : String)
    (hl : label = "CR2 (fault addr): 0x" ∨ label = "Page fault: ")
    (exc_num error_code eip : Nat) (r : registers) :
    Call.vga_puts label ∉ report_head exc_num error_code eip
      ∧ Call.vga_puts label ∉ report_tail eip r := by
  constructor
  · by_cases h32 : exc_num < 32
    · obtain ⟨name, hname⟩ := exception_names_lookup exc_num h32
      obtain ⟨_, h1, h2⟩ := name_not_label exc_num name hname
      rcases hl with rfl | rfl
      · simp [report_head, hex_line, h32, hname, Ne.symm h1]
      · simp [report_head, hex_line, h32, hname, Ne.symm h2]
    · rcases hl with rfl | rfl <;> simp [report_head, hex_line, h32]
  · rcases hl with rfl | rfl <;> simp [report_tail, hex_line]

/-- A label of the page-fault block is written exactly when the number is 14. -/
theorem label_mem_report_iff (label : String)
    (hl : label = "CR2 (fault addr): 0x" ∨ label = "Page fault: ")
    (exc_num error_code eip cr2 : Nat) (r : registers) :
    Call.vga_puts label ∈ report exc_num error_code eip cr2 r ↔ exc_num = 14 := by
  obtain ⟨hh, ht⟩ := label_not_mem_outside label hl exc_num error_code eip r
  by_cases h14 : exc_num = 14
  · simp only [report, h14, if_true, List.mem_append, iff_true]
    refine Or.inl (Or.inr ?_)
    rw [report_page_fault_bits]
    rcases hl with rfl | rfl <;> simp
  · simp only [report, h14, if_false, List.append_nil, List.mem_append, iff_false]
    rintro (h | h)
    · exact hh h
    · exact ht h

/-- The number of calls of a run. -/
theorem report_length (exc_num error_code eip cr2 : Nat) (r : registers) :
    (report exc_num error_code eip cr2 r).length = if exc_num = 14 then 65 else 57 := by
  by_cases h14 : exc_num = 14 <;>
    simp [report, report_head, report_page_fault, report_tail, hex_line, h14]

/-- The routine `freeze` is called exactly once in a report. -/
theorem count_freeze (exc_num error_code eip cr2 : Nat) (r : registers) :
    (report exc_num error_code eip cr2 r).count .freeze = 1 := by
  have hhead : (report_head exc_num error_code eip).count .freeze = 0 :=
    List.count_eq_zero.mpr (by simp [report_head, hex_line])
  have hpf : (report_page_fault error_code cr2).count .freeze = 0 :=
    List.count_eq_zero.mpr (by simp [report_page_fault_bits])
  have htail : (report_tail eip r).count .freeze = 1 := by
    unfold report_tail
    rw [List.count_append, List.count_eq_zero.mpr (by simp [hex_line])]
    decide
  simp only [report, List.count_append, htail, hhead]
  split_ifs
  · rw [hpf]
  · rfl

/-! ## Lemmas on the text of a report -/

theorem hex_digit_ne_newline (d : Nat) : hex_digit d ≠ '\n' := by
  by_cases h : d < 16
  · interval_cases d <;> decide
  · have : hex_digit d = '0' := by
      unfold hex_digit
      exact List.getD_eq_default _ _ (by simpa using h)
    rw [this]; decide

/-- A hex text holds no line break. -/
theorem hex8_no_newline (v : Nat) : '\n' ∉ (hex8 v).data := by
  simp only [hex8, List.mem_map, not_exists, not_and]
  intro i _ h
  exact hex_digit_ne_newline _ h

theorem exception_names_no_newline : ∀ name ∈ exception_names, '\n' ∉ name.data := by
  decide

theorem report_name_no_newline (exc_num : Nat) : '\n' ∉ (report_name exc_num).data := by
  unfold report_name
  by_cases h32 : exc_num < 32
  · obtain ⟨name, hname⟩ := exception_names_lookup exc_num h32
    rw [if_pos h32, hname, Option.getD_some]
    exact exception_names_no_newline name (List.getElem?_mem hname)
  · rw [if_neg h32]; decide

/-- Splitting a text whose first line is `l`. -/
theorem split_lines_line (l rest : List Char) (h : '\n' ∉ l) :
    split_lines (l ++ '\n' :: rest) = l :: split_lines rest := by
  induction l with
  | nil => simp [split_lines]
  | cons c l ih =>
    have hc : c ≠ '\n' := fun hc => h (hc ▸ List.mem_cons_self _ _)
    have hl : '\n' ∉ l := fun hl => h (List.mem_cons_of_mem _ hl)
    simp [split_lines, hc, ih hl]

theorem unlines_cons (l : String) (ls : List String) :
    unlines (l :: ls) = l ++ "\n" ++ unlines ls := by
  apply String.ext
  simp [unlines, String.data_join]

/-- The lines of a text made of lines that hold no line break. -/
theorem text_lines_unlines (ls : List String) (h : ∀ l ∈ ls, '\n' ∉ l.data) :
    text_lines (unlines ls) = ls ++ [""] := by
  induction ls with
  | nil => rfl
  | cons l ls ih =>
    have hl := h l (List.mem_cons_self _ _)
    have ih2 := ih (fun x hx => h x (List.mem_cons_of_mem _ hx))
    simp only [text_lines] at ih2 ⊢
    rw [unlines_cons]
    simp only [String.data_append]
    rw [List.append_assoc, List.singleton_append, split_lines_line _ _ hl, List.map_cons, ih2]
    rfl

theorem text_lines_newline (t : String) : text_lines ("\n" ++ t) = "" :: text_lines t := by
  simp [text_lines, split_lines]

/-- The text of a run is a line break followed by the lines `report_lines`. -/
theorem render_report (exc_num error_code eip cr2 : Nat) (r : registers) :
    render (report exc_num error_code eip cr2 r)
      = "\n" ++ unlines (report_lines exc_num error_code eip cr2 r) := by
  apply String.ext
  by_cases h14 : exc_num = 14 <;>
    simp [render, report, report_head, report_page_fault_bits, report_tail, hex_line, h14,
      Call.text, unlines, report_lines, report_name, layout_lines, String.data_join,
      Nat.shiftRight_eq_div_pow]

theorem report_lines_no_newline (exc_num error_code eip cr2 : Nat) (r : registers) :
    ∀ l ∈ report_lines exc_num error_code eip cr2 r, '\n' ∉ l.data := by
  have hx := hex8_no_newline
  by_cases h14 : exc_num = 14
  · subst h14
    have hn := report_name_no_newline 14
    simp only [report_lines, layout_lines, if_true]
    split_ifs <;> simp [hn, hx]
  · have hn := report_name_no_newline exc_num
    simp [report_lines, layout_lines, h14, hn, hx]

/-- The lines of the text of a run. -/
theorem text_lines_report (exc_num error_code eip cr2 : Nat) (r : registers) :
    text_lines (render (report exc_num error_code eip cr2 r))
      = [""] ++ report_lines exc_num error_code eip cr2 r ++ [""] := by
  rw [render_report, text_lines_newline,
    text_lines_unlines _ (report_lines_no_newline exc_num error_code eip cr2 r)]
  rfl

/-- Every digit `hex_digit` writes is one of the sixteen hex digits. -/
theorem hex_digit_mem (d : Nat) :
    hex_digit d ∈ ['0', '1', '2', '3', '4', '5', '6', '7', '8', '9', 'A', 'B', 'C', 'D', 'E', 'F'] := by
  by_cases h : d < 16
  · interval_cases d <;> decide
  · have : hex_digit d = '0' := by
      unfold hex_digit
      exact List.getD_eq_default _ _ (by simpa using h)
    rw [this]; decide

/-- A hex text holds hex digits only. -/
theorem hex8_chars (v : Nat) (c : Char) (h : c ∈ (hex8 v).data) :
    c ∈ ['0', '1', '2', '3', '4', '5', '6', '7', '8', '9', 'A', 'B', 'C', 'D', 'E', 'F'] := by
  simp only [hex8, List.mem_map] at h
  obtain ⟨i, _, rfl⟩ := h
  exact hex_digit_mem _

/-- A text without the character `c` that occurs in `a ++ c :: b` occurs in `a`
or in `b`. -/
theorem infix_of_infix_append_sep (p a b : List Char) (c : Char) (hc : c ∉ p)
    (h : p <:+: a ++ c :: b) : p <:+: a ∨ p <:+: b := by
  obtain ⟨s, t, hst⟩ := h
  rcases List.append_eq_append_iff.mp hst with ⟨a', ha, _⟩ | ⟨c', hsp, hcb⟩
  · exact Or.inl ⟨s, a', ha.symm⟩
  · cases c' with
    | nil =>
      rw [List.append_nil] at hsp
      exact Or.inl ⟨s, [], by rw [List.append_nil]; exact hsp⟩
    | cons x c'' =>
      rw [List.cons_append] at hcb
      obtain ⟨hx, hb⟩ := List.cons.inj hcb
      subst hx
      rcases List.append_eq_append_iff.mp hsp with ⟨a', ha, hp⟩ | ⟨s', hs, hcs⟩
      · exact absurd (hp ▸ List.mem_append_right a' (List.mem_cons_self _ _)) hc
      · cases s' with
        | nil =>
          rw [List.nil_append] at hcs
          exact absurd (hcs ▸ List.mem_cons_self _ _) hc
        | cons y s'' =>
          rw [List.cons_append] at hcs
          obtain ⟨_, hc''⟩ := List.cons.inj hcs
          exact Or.inr ⟨s'', t, by rw [hb, hc'']⟩

/-- A text whose last character is not in `h` and that occurs in `a ++ h` occurs
in `a`. -/
theorem infix_of_infix_append_end (p a h : List Char) (x : Char) (hx : x ∉ h)
    (hp : (p ++ [x]) <:+: a ++ h) : (p ++ [x]) <:+: a := by
  obtain ⟨s, t, hst⟩ := hp
  rcases List.append_eq_append_iff.mp hst with ⟨a', ha, _⟩ | ⟨c', hsp, hh⟩
  · exact ⟨s, a', ha.symm⟩
  · rcases List.eq_nil_or_concat c' with rfl | ⟨c'', y, rfl⟩
    · rw [List.append_nil] at hsp
      exact ⟨s, [], by rw [List.append_nil]; exact hsp⟩
    · exfalso
      apply hx
      have hy : x = y := by
        have := congrArg List.getLast? hsp
        simpa [List.getLast?_append, ← List.append_assoc] using this
      subst hy
      rw [hh]
      simp

/-- A non-empty text without line break that occurs in a text made of lines
occurs in one of the lines. -/
theorem infix_line_of_infix_unlines (p : List Char) (hn : '\n' ∉ p) (hne : p ≠ [])
    (ls : List String) (h : p <:+: (unlines ls).data) : ∃ l ∈ ls, p <:+: l.data := by
  induction ls with
  | nil =>
    exact absurd (List.infix_nil.mp h) hne
  | cons l ls ih =>
    rw [unlines_cons] at h
    simp only [String.data_append] at h
    rw [List.append_assoc] at h
    rcases infix_of_infix_append_sep p l.data (unlines ls).data '\n' hn h with h1 | h2
    · exact ⟨l, List.mem_cons_self _ _, h1⟩
    · obtain ⟨l', hl', hp'⟩ := ih h2
      exact ⟨l', List.mem_cons_of_mem _ hl', hp'⟩

/-- The text of a call occurs in the text of every sequence that holds the call. -/
theorem text_infix_of_mem (c : Call) (cs : List Call) (h : c ∈ cs) :
    c.text.data <:+: (render cs).data := by
  rw [render, String.data_join]
  apply List.infix_of_mem_flatten
  exact List.mem_map.mpr ⟨c.text, List.mem_map.mpr ⟨c, h, rfl⟩, rfl⟩


/-- The name a report shows is "Unknown" or an entry of the table. -/
theorem report_name_mem (exc_num : Nat) : report_name exc_num ∈ "Unknown" :: exception_names := by
  unfold report_name
  by_cases h32 : exc_num < 32
  · obtain ⟨name, hname⟩ := exception_names_lookup exc_num h32
    rw [if_pos h32, hname, Option.getD_some]
    exact List.mem_cons_of_mem _ (List.getElem?_mem hname)
  · rw [if_neg h32]; exact List.mem_cons_self _ _

/-- A text whose last character is no hex digit occurs in a labeled hex line only
if it occurs in the label. -/
theorem not_infix_hex_line (p : List Char) (x : Char) (label : String) (v : Nat)
    (hx : x ∉ ['0', '1', '2', '3', '4', '5', '6', '7', '8', '9', 'A', 'B', 'C', 'D', 'E', 'F'])
    (hl : ¬ (p ++ [x]) <:+: label.data) : ¬ (p ++ [x]) <:+: (label ++ hex8 v).data := by
  intro h
  rw [String.data_append] at h
  exact hl (infix_of_infix_append_end _ _ _ _ (fun hm => hx (hex8_chars v x hm)) h)

/-- A text without line break whose last character is no hex digit, and that
occurs in no name line, in no fixed line and in no label, occurs nowhere in the
text of a report without page-fault block. -/
theorem not_infix_report_text (p : List Char) (x : Char)
    (hn : '\n' ∉ p ++ [x])
    (hx : x ∉ ['0', '1', '2', '3', '4', '5', '6', '7', '8', '9', 'A', 'B', 'C', 'D', 'E', 'F'])
    (hname : ∀ name ∈ "Unknown" :: exception_names,
      ¬ (p ++ [x]) <:+: ("Exception: " ++ name).data)
    (hlit : ∀ l ∈ ["*** KERNEL PANIC ***", "", "Registers:", "Segments:", "System halted.",
        "Exception Number: 0x", "Error Code:       0x", "EIP:              0x",
        "  EAX=0x", "  EBX=0x", "  ECX=0x", "  EDX=0x", "  ESI=0x", "  EDI=0x", "  EBP=0x",
        "  ESP=0x", "  CS:  0x", "  DS:  0x", "  ES:  0x", "  FS:  0x", "  GS:  0x"],
      ¬ (p ++ [x]) <:+: String.data l)
    (exc_num error_code eip cr2 : Nat) (r : registers) (h14 : exc_num ≠ 14) :
    ¬ (p ++ [x]) <:+: (render (report exc_num error_code eip cr2 r)).data := by
  intro h
  rw [render_report, String.data_append] at h
  have h2 : (p ++ [x]) <:+: (unlines (report_lines exc_num error_code eip cr2 r)).data := by
    rcases infix_of_infix_append_sep _ [] _ '\n' hn h with h1 | h1
    · exact absurd (List.infix_nil.mp h1) (by simp)
    · exact h1
  obtain ⟨l, hl, hpl⟩ := infix_line_of_infix_unlines _ hn (by simp) _ h2
  have hall : ∀ l ∈ report_lines exc_num error_code eip cr2 r, ¬ (p ++ [x]) <:+: l.data := by
    have hnm := hname _ (report_name_mem exc_num)
    simp only [report_lines, layout_lines, h14, if_false, List.append_nil, List.cons_append,
      List.nil_append, List.forall_mem_cons]
    repeat' apply And.intro
    all_goals first
      | exact hnm
      | exact hlit _ (by decide)
      | exact not_infix_hex_line _ _ _ _ hx (hlit _ (by decide))
      | (intro l hl; exact absurd hl (List.not_mem_nil l))
  exact hall l hl hpl

/-! ## Properties of the fault report -/

/-- C1: for every exception number `N` with `N < 32` (and every error code,
EIP, frame address and machine state), the handler writes the label
"Exception: " exactly once, as its third call, and the call immediately after
it writes exactly the entry at index `N` of `exception_names`. -/
theorem C1_name_is_table_entry (N error_code eip regs : Nat) (m : Machine) (h : N < 32) :
    ∃ name, exception_names[N]? = some name
      ∧ (calls N error_code eip regs m)[2]? = some (.vga_puts "Exception: ")
      ∧ (calls N error_code eip regs m)[3]? = some (.vga_puts name)
      ∧ (calls N error_code eip regs m).count (.vga_puts "Exception: ") = 1 := by
  obtain ⟨name, hname⟩ := exception_names_lookup N h
  refine ⟨name, hname, ?_, ?_, ?_⟩
  · rw [calls_eq]; rfl
  · rw [calls_eq]
    simp only [report, report_head, h, if_true, hname, Option.getD_some]
    rfl
  · rw [calls_eq]; exact count_exception_label _ _ _ _ _

/-- C1 at the numbers 0, 13, 14 and 19, on a machine whose frame is all zero:
the names written are "Divide by Zero", "General Protection Fault",
"Page Fault" and "SIMD Floating-Point Exception". -/
theorem C1_name_is_table_entry_witness :
    (calls 0 0 0x100234 0 (Machine.start 0 fun _ => registers.ofWords fun _ => 0))[3]?
        = some (.vga_puts "Divide by Zero")
      ∧ (calls 13 0 0x100234 0 (Machine.start 0 fun _ => registers.ofWords fun _ => 0))[3]?
        = some (.vga_puts "General Protection Fault")
      ∧ (calls 14 7 0xC0001000 0 (Machine.start 0 fun _ => registers.ofWords fun _ => 0))[3]?
        = some (.vga_puts "Page Fault")
      ∧ (calls 19 0 0x100234 0 (Machine.start 0 fun _ => registers.ofWords fun _ => 0))[3]?
        = some (.vga_puts "SIMD Floating-Point Exception") := by
  refine ⟨?_, ?_, ?_, ?_⟩
  · obtain ⟨name, hn, _, h3, _⟩ := C1_name_is_table_entry 0 0 0x100234 0
      (Machine.start 0 fun _ => registers.ofWords fun _ => 0) (by decide)
    rw [h3, ← Option.some.inj (hn.symm.trans (by decide : exception_names[0]? = some "Divide by Zero"))]
  · obtain ⟨name, hn, _, h3, _⟩ := C1_name_is_table_entry 13 0 0x100234 0
      (Machine.start 0 fun _ => registers.ofWords fun _ => 0) (by decide)
    rw [h3, ← Option.some.inj (hn.symm.trans (by decide : exception_names[13]? = some "General Protection Fault"))]
  · obtain ⟨name, hn, _, h3, _⟩ := C1_name_is_table_entry 14 7 0xC0001000 0
      (Machine.start 0 fun _ => registers.ofWords fun _ => 0) (by decide)
    rw [h3, ← Option.some.inj (hn.symm.trans (by decide : exception_names[14]? = some "Page Fault"))]
  · obtain ⟨name, hn, _, h3, _⟩ := C1_name_is_table_entry 19 0 0x100234 0
      (Machine.start 0 fun _ => registers.ofWords fun _ => 0) (by decide)
    rw [h3, ← Option.some.inj (hn.symm.trans (by decide : exception_names[19]? = some "SIMD Floating-Point Exception"))]

/-- C2: for every exception number `N` with `32 ≤ N` (in particular every
32-bit one), the handler writes the label "Exception: " exactly once, as its
third call, the call immediately after it writes the fixed label "Unknown",
and no entry of `exception_names` is read. -/
theorem C2_unknown_above_31 (N error_code eip regs : Nat) (m : Machine) (h : 32 ≤ N) :
    (calls N error_code eip regs m)[2]? = some (.vga_puts "Exception: ")
      ∧ (calls N error_code eip regs m)[3]? = some (.vga_puts "Unknown")
      ∧ (calls N error_code eip regs m).count (.vga_puts "Exception: ") = 1
      ∧ name_reads N error_code eip regs m = [] := by
  have h32 : ¬ N < 32 := by omega
  refine ⟨?_, ?_, ?_, ?_⟩
  · rw [calls_eq]; rfl
  · rw [calls_eq]
    simp only [report, report_head, h32, if_false]
    rfl
  · rw [calls_eq]; exact count_exception_label _ _ _ _ _
  · rw [name_reads_eq, if_neg h32]

/-- C2 at the exception number 99. -/
theorem C2_unknown_above_31_witness :
    (calls 99 0 0x100234 0 (Machine.start 0 fun _ => registers.ofWords fun _ => 0))[3]?
        = some (.vga_puts "Unknown")
      ∧ name_reads 99 0 0x100234 0 (Machine.start 0 fun _ => registers.ofWords fun _ => 0) = [] :=
  have h := C2_unknown_above_31 99 0 0x100234 0
    (Machine.start 0 fun _ => registers.ofWords fun _ => 0) (by decide)
  ⟨h.2.1, h.2.2.2⟩

/-- C3: the table has exactly 32 entries; for every value of `exc_num` the
handler reads it only when `exc_num < 32`, and then once, at index `exc_num`;
every index it reads holds an entry, and no run ends in an out-of-bounds read. -/
theorem C3_lookup_in_bounds (exc_num error_code eip regs : Nat) (m : Machine) :
    exception_names.length = 32
      ∧ name_reads exc_num error_code eip regs m = (if exc_num < 32 then [exc_num] else [])
      ∧ (∀ i ∈ name_reads exc_num error_code eip regs m,
          i < exception_names.length ∧ ∃ name, exception_names[i]? = some name)
      ∧ ∀ m1, exception_handler exc_num error_code eip regs m ≠ .out_of_bounds m1 := by
  refine ⟨exception_names_length, name_reads_eq _ _ _ _ _, ?_, ?_⟩
  · intro i hi
    rw [name_reads_eq] at hi
    by_cases h32 : exc_num < 32
    · rw [if_pos h32, List.mem_singleton] at hi
      subst hi
      exact ⟨by rw [exception_names_length]; exact h32, exception_names_lookup i h32⟩
    · rw [if_neg h32] at hi
      exact absurd hi (List.not_mem_nil i)
  · intro m1 hm
    rw [exception_handler_eq] at hm
    exact Outcome.noConfusion hm

set_option maxRecDepth 100000 in
/-- C4: for every input, the text "CR2 (fault addr): 0x" occurs in the text the
handler writes (each `vga_print_hex` rendered as its hex digits) if and only if
`exc_num` is 14, and so does the text "Page fault: "; likewise each of the two
labels is the argument of a `vga_puts` call if and only if `exc_num` is 14. For
every other exception number neither text is written, in one piece or in
several. -/
theorem C4_page_fault_block_iff_14 (exc_num error_code eip regs : Nat) (m : Machine) :
    ("CR2 (fault addr): 0x".data <:+: (render (calls exc_num error_code eip regs m)).data
        ↔ exc_num = 14)
      ∧ ("Page fault: ".data <:+: (render (calls exc_num error_code eip regs m)).data
        ↔ exc_num = 14)
      ∧ (Call.vga_puts "CR2 (fault addr): 0x" ∈ calls exc_num error_code eip regs m
        ↔ exc_num = 14)
      ∧ (Call.vga_puts "Page fault: " ∈ calls exc_num error_code eip regs m ↔ exc_num = 14) := by
  rw [calls_eq]
  have hcr2 := label_mem_report_iff "CR2 (fault addr): 0x" (Or.inl rfl)
    exc_num error_code eip m.cr2 (m.frames regs)
  have hpf := label_mem_report_iff "Page fault: " (Or.inr rfl)
    exc_num error_code eip m.cr2 (m.frames regs)
  refine ⟨⟨?_, fun h14 => text_infix_of_mem _ _ (hcr2.mpr h14)⟩,
    ⟨?_, fun h14 => text_infix_of_mem _ _ (hpf.mpr h14)⟩, hcr2, hpf⟩
  · intro h
    by_contra h14
    exact not_infix_report_text "CR2 (fault addr): 0".data 'x' (by decide) (by decide)
      (by decide) (by decide) exc_num error_code eip m.cr2 (m.frames regs) h14 h
  · intro h
    by_contra h14
    exact not_infix_report_text "Page fault:".data ' ' (by decide) (by decide)
      (by decide) (by decide) exc_num error_code eip m.cr2 (m.frames regs) h14 h

set_option maxRecDepth 100000 in
/-- C4 on concrete runs: at exception 14 both texts occur in the text written;
at exceptions 0, 13 and 99 neither does. -/
theorem C4_page_fault_block_iff_14_witness :
    "CR2 (fault addr): 0x".data <:+: (render (calls 14 7 0xC0001000 0
        (Machine.start 0xDEADBEEF fun _ => registers.ofWords fun _ => 0))).data
      ∧ "Page fault: ".data <:+: (render (calls 14 7 0xC0001000 0
        (Machine.start 0xDEADBEEF fun _ => registers.ofWords fun _ => 0))).data
      ∧ ¬ "CR2 (fault addr): 0x".data <:+: (render (calls 0 0 0x100234 0
        (Machine.start 0 fun _ => registers.ofWords fun _ => 0))).data
      ∧ ¬ "Page fault: ".data <:+: (render (calls 13 0 0x100234 0
        (Machine.start 0 fun _ => registers.ofWords fun _ => 0))).data
      ∧ ¬ "Page fault: ".data <:+: (render (calls 99 0 0x100234 0
        (Machine.start 0 fun _ => registers.ofWords fun _ => 0))).data :=
  ⟨(C4_page_fault_block_iff_14 14 7 0xC0001000 0 _).1.mpr rfl,
   (C4_page_fault_block_iff_14 14 7 0xC0001000 0 _).2.1.mpr rfl,
   fun h => absurd ((C4_page_fault_block_iff_14 0 0 0x100234 0 _).1.mp h) (by decide),
   fun h => absurd ((C4_page_fault_block_iff_14 13 0 0x100234 0 _).2.1.mp h) (by decide),
   fun h => absurd ((C4_page_fault_block_iff_14 99 0 0x100234 0 _).2.1.mp h) (by decide)⟩

/-- C5: for exception number 14 and every error code, calls 17 to 21 of the
handler are the page-fault line: "Page fault: ", then "Present " if bit 0 of the
error code is set and "Not-present " otherwise, then "Write " if bit 1 is set
and "Read " otherwise, then "User-mode" if bit 2 is set and "Kernel-mode"
otherwise, then the end of the line. Two error codes that differ in their low
three bits give different lines, whatever the other inputs. -/
theorem C5_page_fault_bits (error_code eip regs : Nat) (m : Machine) :
    ((calls 14 error_code eip regs m).drop 17).take 5
        = [.vga_puts "Page fault: ",
           .vga_puts (if error_code.testBit 0 = true then "Present " else "Not-present "),
           .vga_puts (if error_code.testBit 1 = true then "Write " else "Read "),
           .vga_puts (if error_code.testBit 2 = true then "User-mode" else "Kernel-mode"),
           .vga_puts "\n"]
      ∧ ∀ (e2 eip2 regs2 : Nat) (m2 : Machine), error_code % 8 ≠ e2 % 8 →
          ((calls 14 error_code eip regs m).drop 17).take 5
            ≠ ((calls 14 e2 eip2 regs2 m2).drop 17).take 5 := by
  have key : ∀ (e ip rg : Nat) (mm : Machine),
      ((calls 14 e ip rg mm).drop 17).take 5
        = [.vga_puts "Page fault: ",
           .vga_puts (if e.testBit 0 = true then "Present " else "Not-present "),
           .vga_puts (if e.testBit 1 = true then "Write " else "Read "),
           .vga_puts (if e.testBit 2 = true then "User-mode" else "Kernel-mode"),
           .vga_puts "\n"] := by
    intro e ip rg mm
    rw [calls_eq]
    simp only [report, if_true, report_page_fault_bits]
    rfl
  refine ⟨key _ _ _ _, ?_⟩
  intro e2 eip2 regs2 m2 hne heq
  rw [key, key] at heq
  simp only [List.cons.injEq, Call.vga_puts.injEq, true_and, and_true] at heq
  obtain ⟨h0, h1, h2⟩ := heq
  apply hne
  apply mod_eight_of_testBit
  · cases ha : error_code.testBit 0 <;> cases hb : e2.testBit 0 <;> simp [ha, hb] at h0 <;> rfl
  · cases ha : error_code.testBit 1 <;> cases hb : e2.testBit 1 <;> simp [ha, hb] at h1 <;> rfl
  · cases ha : error_code.testBit 2 <;> cases hb : e2.testBit 2 <;> simp [ha, hb] at h2 <;> rfl

/-- C5 at the error code 7: the line reads "Page fault: Present Write User-mode",
it differs from the line of error code 3, and the eight error codes 0 to 7 give
eight pairwise distinct lines. -/
theorem C5_page_fault_bits_witness :
    render (((calls 14 7 0xC0001000 0
        (Machine.start 0xDEADBEEF fun _ => registers.ofWords fun _ => 0)).drop 17).take 5)
        = "Page fault: Present Write User-mode\n"
      ∧ ((calls 14 7 0xC0001000 0
          (Machine.start 0xDEADBEEF fun _ => registers.ofWords fun _ => 0)).drop 17).take 5
        ≠ ((calls 14 3 0xC0001000 0
          (Machine.start 0xDEADBEEF fun _ => registers.ofWords fun _ => 0)).drop 17).take 5
      ∧ ((List.range 8).map fun e => render (((calls 14 e 0xC0001000 0
          (Machine.start 0xDEADBEEF fun _ => registers.ofWords fun _ => 0)).drop 17).take 5)).Nodup :=
  ⟨by rw [(C5_page_fault_bits 7 0xC0001000 0 _).1]; decide,
   (C5_page_fault_bits 7 0xC0001000 0 _).2 3 0xC0001000 0 _ (by decide),
   by decide⟩

/-- C6: with CR2 a register of the machine state whose reads are counted: for
exception number 14 the handler reads CR2 exactly once and calls 14 to 16 are
the line labeled "CR2 (fault addr): 0x" whose hex value is exactly the content
of CR2; for every other exception number CR2 is never read and the calls of the
handler are the same whatever CR2 holds. -/
theorem C6_cr2_read_once (exc_num error_code eip regs : Nat) (m : Machine) :
    (exc_num = 14 →
        cr2_reads exc_num error_code eip regs m = 1
        ∧ ((calls exc_num error_code eip regs m).drop 14).take 3
            = [.vga_puts "CR2 (fault addr): 0x", .vga_print_hex m.cr2, .vga_puts "\n"])
      ∧ (exc_num ≠ 14 →
        cr2_reads exc_num error_code eip regs m = 0
        ∧ ∀ c : Nat, calls exc_num error_code eip regs { m with cr2 := c }
            = calls exc_num error_code eip regs m) := by
  constructor
  · intro h14
    subst h14
    refine ⟨by rw [cr2_reads_eq, if_pos rfl], ?_⟩
    rw [calls_eq]
    simp only [report, if_true, report_page_fault_bits]
    rfl
  · intro h14
    refine ⟨by rw [cr2_reads_eq, if_neg h14], ?_⟩
    intro c
    rw [calls_eq, calls_eq]
    simp only [report, h14, if_false]

/-- C6 at exception 14, error code 7, EIP 0xC0001000 and CR2 = 0xDEADBEEF: CR2
is read once, the name written is "Page Fault", the CR2 line reads
"CR2 (fault addr): 0xDEADBEEF" and the page-fault line
"Page fault: Present Write User-mode". -/
theorem C6_cr2_read_once_witness :
    cr2_reads 14 7 0xC0001000 0
        (Machine.start 0xDEADBEEF fun _ => registers.ofWords fun _ => 0) = 1
      ∧ (calls 14 7 0xC0001000 0
          (Machine.start 0xDEADBEEF fun _ => registers.ofWords fun _ => 0))[3]?
        = some (.vga_puts "Page Fault")
      ∧ render (((calls 14 7 0xC0001000 0
          (Machine.start 0xDEADBEEF fun _ => registers.ofWords fun _ => 0)).drop 14).take 3)
        = "CR2 (fault addr): 0xDEADBEEF\n"
      ∧ render (((calls 14 7 0xC0001000 0
          (Machine.start 0xDEADBEEF fun _ => registers.ofWords fun _ => 0)).drop 17).take 5)
        = "Page fault: Present Write User-mode\n" :=
  ⟨((C6_cr2_read_once 14 7 0xC0001000 0 _).1 rfl).1,
   by decide,
   by rw [((C6_cr2_read_once 14 7 0xC0001000 0 _).1 rfl).2]; decide,
   by decide⟩

/-- C7: for every input, the 26 calls that start at the header "Registers:"
(call 14, or call 22 after a page-fault block) are that header, then eight
lines, each a label, one hex value and the end of the line, labeled and ordered
EAX, EBX, ECX, EDX, ESI, EDI, EBP, ESP, each value being the field of that name
of the frame at `regs`, then the header "Segments:". When the frame is held by
twelve contiguous words, the eight values are words 11, 8, 10, 9, 5, 4, 6, 7. -/
theorem C7_registers_block (exc_num error_code eip regs : Nat) (m : Machine) :
    ((calls exc_num error_code eip regs m).drop (if exc_num = 14 then 22 else 14)).take 26
        = [.vga_puts "\nRegisters:\n",
           .vga_puts "  EAX=0x", .vga_print_hex (m.frames regs).eax, .vga_puts "\n",
           .vga_puts "  EBX=0x", .vga_print_hex (m.frames regs).ebx, .vga_puts "\n",
           .vga_puts "  ECX=0x", .vga_print_hex (m.frames regs).ecx, .vga_puts "\n",
           .vga_puts "  EDX=0x", .vga_print_hex (m.frames regs).edx, .vga_puts "\n",
           .vga_puts "  ESI=0x", .vga_print_hex (m.frames regs).esi, .vga_puts "\n",
           .vga_puts "  EDI=0x", .vga_print_hex (m.frames regs).edi, .vga_puts "\n",
           .vga_puts "  EBP=0x", .vga_print_hex (m.frames regs).ebp, .vga_puts "\n",
           .vga_puts "  ESP=0x", .vga_print_hex (m.frames regs).esp, .vga_puts "\n",
           .vga_puts "\nSegments:\n"]
      ∧ ∀ w : Nat → Nat, m.frames regs = registers.ofWords w →
          hex_values (((calls exc_num error_code eip regs m).drop
              (if exc_num = 14 then 22 else 14)).take 26)
            = [w 11, w 8, w 10, w 9, w 5, w 4, w 6, w 7] := by
  have key : ((calls exc_num error_code eip regs m).drop (if exc_num = 14 then 22 else 14)).take 26
        = [.vga_puts "\nRegisters:\n",
           .vga_puts "  EAX=0x", .vga_print_hex (m.frames regs).eax, .vga_puts "\n",
           .vga_puts "  EBX=0x", .vga_print_hex (m.frames regs).ebx, .vga_puts "\n",
           .vga_puts "  ECX=0x", .vga_print_hex (m.frames regs).ecx, .vga_puts "\n",
           .vga_puts "  EDX=0x", .vga_print_hex (m.frames regs).edx, .vga_puts "\n",
           .vga_puts "  ESI=0x", .vga_print_hex (m.frames regs).esi, .vga_puts "\n",
           .vga_puts "  EDI=0x", .vga_print_hex (m.frames regs).edi, .vga_puts "\n",
           .vga_puts "  EBP=0x", .vga_print_hex (m.frames regs).ebp, .vga_puts "\n",
           .vga_puts "  ESP=0x", .vga_print_hex (m.frames regs).esp, .vga_puts "\n",
           .vga_puts "\nSegments:\n"] := by
    rw [calls_eq]
    by_cases h14 : exc_num = 14 <;>
      simp [report, report_head, report_page_fault, report_tail, hex_line, h14]
  refine ⟨key, ?_⟩
  intro w hw
  rw [key, hw]
  rfl

/-- C7 on an all-zero frame, on an all-0xFFFFFFFF frame and on the frame whose
word `i` holds `i`: the eight values written are eight zeros, eight times
0xFFFFFFFF, and 11, 8, 10, 9, 5, 4, 6, 7. -/
theorem C7_registers_block_witness :
    hex_values (((calls 0 0 0x100234 0
        (Machine.start 0 fun _ => registers.ofWords fun _ => 0)).drop 14).take 26)
        = [0, 0, 0, 0, 0, 0, 0, 0]
      ∧ hex_values (((calls 0 0 0x100234 0
        (Machine.start 0 fun _ => registers.ofWords fun _ => 0xFFFFFFFF)).drop 14).take 26)
        = [0xFFFFFFFF, 0xFFFFFFFF, 0xFFFFFFFF, 0xFFFFFFFF,
           0xFFFFFFFF, 0xFFFFFFFF, 0xFFFFFFFF, 0xFFFFFFFF]
      ∧ hex_values (((calls 14 7 0xC0001000 0
        (Machine.start 0xDEADBEEF fun _ => registers.ofWords fun i => i)).drop 22).take 26)
        = [11, 8, 10, 9, 5, 4, 6, 7] :=
  ⟨(C7_registers_block 0 0 0x100234 0
      (Machine.start 0 fun _ => registers.ofWords fun _ => 0)).2 (fun _ => 0) rfl,
   (C7_registers_block 0 0 0x100234 0
      (Machine.start 0 fun _ => registers.ofWords fun _ => 0xFFFFFFFF)).2 (fun _ => 0xFFFFFFFF) rfl,
   (C7_registers_block 14 7 0xC0001000 0
      (Machine.start 0xDEADBEEF fun _ => registers.ofWords fun i => i)).2 (fun i => i) rfl⟩

/-- C8: for every input, the run of the handler ends halted and never returns
to its caller: whatever code the caller has placed after the call, none of it
runs. The last call of the handler is `freeze`, `freeze` is called exactly
once, and the call immediately before it writes the notice "System halted.". -/
theorem C8_never_returns (exc_num error_code eip regs : Nat) (m : Machine) :
    (∃ m1, exception_handler exc_num error_code eip regs m = .halted m1)
      ∧ (∀ (β : Type) (k : Unit → Exec β),
          (exception_handler exc_num error_code eip regs >>= k) m
            = .halted (exception_handler exc_num error_code eip regs m).machine)
      ∧ (calls exc_num error_code eip regs m).getLast? = some .freeze
      ∧ (calls exc_num error_code eip regs m).count .freeze = 1
      ∧ (calls exc_num error_code eip regs m).drop
            ((calls exc_num error_code eip regs m).length - 2)
          = [.vga_puts "\nSystem halted.\n", .freeze] := by
  refine ⟨⟨_, exception_handler_eq _ _ _ _ _⟩, ?_, ?_, ?_, ?_⟩
  · intro β k
    rw [bind_run]
    simp only [Exec.bind, exception_handler_eq, Outcome.machine]
  · rw [calls_eq]
    simp only [report, report_tail, List.getLast?_append, List.getLast?_cons_cons,
      List.getLast?_singleton, Option.or_some]
  · rw [calls_eq]; exact count_freeze _ _ _ _ _
  · rw [calls_eq, report_length]
    by_cases h14 : exc_num = 14 <;>
      simp [report, report_head, report_page_fault, report_tail, hex_line, h14]

/-- C9: for every input, call 2 writes the label "Exception: ", call 4 ends
the line of the exception name, and the nine calls after it are three lines, each a label, one hex value and the end of
the line: "Exception Number: 0x" with `exc_num`, "Error Code:       0x" with
`error_code`, "EIP:              0x" with `eip`, in this order. The call after
them starts the CR2 line when `exc_num` is 14 and the register dump otherwise. -/
theorem C9_detail_lines (exc_num error_code eip regs : Nat) (m : Machine) :
    (calls exc_num error_code eip regs m)[2]? = some (.vga_puts "Exception: ")
      ∧ (calls exc_num error_code eip regs m)[4]? = some (.vga_puts "\n\n")
      ∧ ((calls exc_num error_code eip regs m).drop 5).take 9
        = [.vga_puts "Exception Number: 0x", .vga_print_hex exc_num, .vga_puts "\n",
           .vga_puts "Error Code:       0x", .vga_print_hex error_code, .vga_puts "\n",
           .vga_puts "EIP:              0x", .vga_print_hex eip, .vga_puts "\n"]
      ∧ (calls exc_num error_code eip regs m)[14]?
        = some (.vga_puts (if exc_num = 14 then "CR2 (fault addr): 0x" else "\nRegisters:\n")) := by
  rw [calls_eq]
  refine ⟨by simp [report, report_head], by simp [report, report_head],
    by simp [report, report_head, hex_line], ?_⟩
  by_cases h14 : exc_num = 14 <;>
    simp [report, report_head, report_page_fault, report_tail, hex_line, h14]

/-- C10: for every snapshot and every 32-bit `eip`, the 16 calls that start at
the header "Segments:" (call 39, or call 47 after a page-fault block) are that
header and five lines, each a label, one hex value and the end of the line,
labeled and ordered CS, DS, ES, FS, GS; the call after them writes the halt
notice. The CS value is `eip / 65536`, the upper 16 bits of the EIP parameter:
it is at most 0xFFFF, and 0 whenever `eip < 0x10000`. The other four values are
the fields `ds`, `es`, `fs`, `gs` of the frame at `regs`. -/
theorem C10_segments_block (exc_num error_code eip regs : Nat) (m : Machine)
    (heip : eip < 2 ^ 32) :
    ((calls exc_num error_code eip regs m).drop (if exc_num = 14 then 47 else 39)).take 17
        = [.vga_puts "\nSegments:\n",
           .vga_puts "  CS:  0x", .vga_print_hex (eip / 65536), .vga_puts "\n",
           .vga_puts "  DS:  0x", .vga_print_hex (m.frames regs).ds, .vga_puts "\n",
           .vga_puts "  ES:  0x", .vga_print_hex (m.frames regs).es, .vga_puts "\n",
           .vga_puts "  FS:  0x", .vga_print_hex (m.frames regs).fs, .vga_puts "\n",
           .vga_puts "  GS:  0x", .vga_print_hex (m.frames regs).gs, .vga_puts "\n",
           .vga_puts "\nSystem halted.\n"]
      ∧ eip / 65536 ≤ 0xFFFF
      ∧ (eip < 0x10000 → eip / 65536 = 0) := by
  refine ⟨?_, by omega, fun h => by omega⟩
  have hshift : eip >>> 16 = eip / 65536 := by
    rw [Nat.shiftRight_eq_div_pow]
  rw [calls_eq, ← hshift]
  by_cases h14 : exc_num = 14 <;>
    simp [report, report_head, report_page_fault, report_tail, hex_line, h14]

/-- C10 at EIP 0xC0001000 (CS value 0xC000) and at EIP 0x00001234 (CS value 0),
on the frame whose word `i` holds `i`: the five values written are the CS value
and words 3, 2, 1, 0. -/
theorem C10_segments_block_witness :
    hex_values (((calls 14 7 0xC0001000 0
        (Machine.start 0xDEADBEEF fun _ => registers.ofWords fun i => i)).drop 47).take 17)
        = [0xC000, 3, 2, 1, 0]
      ∧ hex_values (((calls 0 0 0x1234 0
        (Machine.start 0 fun _ => registers.ofWords fun i => i)).drop 39).take 17)
        = [0, 3, 2, 1, 0] :=
  ⟨(congrArg hex_values (C10_segments_block 14 7 0xC0001000 0
        (Machine.start 0xDEADBEEF fun _ => registers.ofWords fun i => i) (by decide)).1).trans rfl,
   (congrArg hex_values (C10_segments_block 0 0 0x1234 0
        (Machine.start 0 fun _ => registers.ofWords fun i => i) (by decide)).1).trans rfl⟩

/-! ## Further helper lemmas -/

/-- For a number below 32 the fourth call writes the entry of the table. -/
theorem report_name_call (exc_num error_code eip cr2 : Nat) (r : registers) (name : String)
    (hname : exception_names[exc_num]? = some name) :
    (report exc_num error_code eip cr2 r)[3]? = some (.vga_puts name) := by
  have h32 : exc_num < 32 := by
    have := (List.getElem?_eq_some.mp hname).1
    rwa [exception_names_length] at this
  simp [report, report_head, h32, hname]

/-- The names of the numbers 0 to 19 other than 15 are pairwise distinct. -/
theorem names_distinct_below_20 :
    ((List.range 20).all fun i => (List.range 20).all fun j =>
      decide (i ≠ 15 → j ≠ 15 → i ≠ j → exception_names[i]? ≠ exception_names[j]?)) = true := by
  decide

theorem names_distinct (i j : Nat) (hi : i < 20) (hj : j < 20) (hi15 : i ≠ 15) (hj15 : j ≠ 15)
    (hij : i ≠ j) : exception_names[i]? ≠ exception_names[j]? := by
  have h := names_distinct_below_20
  rw [List.all_eq_true] at h
  have h2 := h i (List.mem_range.mpr hi)
  rw [List.all_eq_true] at h2
  exact of_decide_eq_true (h2 j (List.mem_range.mpr hj)) hi15 hj15 hij

/-- Bits 0 to 2 of a number are those of its remainder modulo 8. -/
theorem testBit_of_mod_eight (a b k : Nat) (hk : k < 3) (h : a % 8 = b % 8) :
    a.testBit k = b.testBit k := by
  have h1 := Nat.testBit_mod_two_pow a 3 k
  have h2 := Nat.testBit_mod_two_pow b 3 k
  simp only [hk, decide_True, Bool.true_and] at h1 h2
  rw [← h1, ← h2]
  exact congrArg (fun n => Nat.testBit n k) h

/-! ## Properties of the fault report, continued -/

/-- C11: for every input, the first call of the handler is `vga_set_color`, no
later call is, and its attribute is `(VGA_RED << 4) | VGA_WHITE = 0x4F`:
background (high four bits) `VGA_RED`, foreground (low four bits) `VGA_WHITE`. -/
theorem C11_alert_style_first (exc_num error_code eip regs : Nat) (m : Machine) :
    (calls exc_num error_code eip regs m)[0]? = some (.vga_set_color 0x4F)
      ∧ (∀ attr, Call.vga_set_color attr ∉ (calls exc_num error_code eip regs m).drop 1)
      ∧ (VGA_RED <<< 4 ||| VGA_WHITE) = 0x4F
      ∧ 0x4F / 16 = VGA_RED
      ∧ 0x4F % 16 = VGA_WHITE := by
  rw [calls_eq]
  refine ⟨by simp [report, report_head], ?_, by decide, by decide, by decide⟩
  intro attr
  by_cases h14 : exc_num = 14 <;>
    simp [report, report_head, report_page_fault, report_tail, hex_line, h14]

/-- C12, as stated, fails for exception 0 with error code 0, EIP 0x00100234 and
an all-zero frame: the lines of the text are not those of the layout of the
spec (filled with the values the handler writes, CS value 0x10 included), with
or without the empty line that opens the text and the one after its last line
break. The layout has the line that holds EAX, EBX, ECX and EDX; the text has no
such line. -/
theorem C12_layout_counterexample :
    ¬ (text_lines (render (calls 0 0 0x100234 0
          (Machine.start 0 fun _ => registers.ofWords fun _ => 0)))
        = [""] ++ layout_lines "Divide by Zero" 0 0 0x100234 []
            (layout_register_lines (registers.ofWords fun _ => 0)) 0x10 0 0 0 0 ++ [""])
      ∧ ¬ (text_lines (render (calls 0 0 0x100234 0
          (Machine.start 0 fun _ => registers.ofWords fun _ => 0)))
        = layout_lines "Divide by Zero" 0 0 0x100234 []
            (layout_register_lines (registers.ofWords fun _ => 0)) 0x10 0 0 0 0)
      ∧ "  EAX=0x00000000  EBX=0x00000000  ECX=0x00000000  EDX=0x00000000"
          ∈ layout_lines "Divide by Zero" 0 0 0x100234 []
            (layout_register_lines (registers.ofWords fun _ => 0)) 0x10 0 0 0 0
      ∧ "  EAX=0x00000000  EBX=0x00000000  ECX=0x00000000  EDX=0x00000000"
          ∉ text_lines (render (calls 0 0 0x100234 0
            (Machine.start 0 fun _ => registers.ofWords fun _ => 0))) := by
  refine ⟨?_, ?_, ?_, ?_⟩ <;> decide

/-- C12, amended: for every input, the text written, with each `vga_print_hex`
rendered as its hex digits, opens with a line break and then follows the layout
of the spec line for line, except that the register dump is eight lines holding
one register each, in the order EAX, EBX, ECX, EDX, ESI, EDI, EBP, ESP: the
banner, "Exception: " and the name written by call 3, a blank line, the three
detail lines, the two page-fault lines when `exc_num` is 14, a blank line,
"Registers:", the eight register lines, a blank line, "Segments:", the five
segment lines, a blank line and "System halted."; the text ends with a line
break. -/
theorem C12_layout_one_register_per_line (exc_num error_code eip regs : Nat) (m : Machine) :
    ∃ name, (calls exc_num error_code eip regs m)[3]? = some (.vga_puts name)
      ∧ text_lines (render (calls exc_num error_code eip regs m))
        = [""] ++ layout_lines name exc_num error_code eip
            (if exc_num = 14 then
              ["CR2 (fault addr): 0x" ++ hex8 m.cr2,
               "Page fault: "
                 ++ (if error_code.testBit 0 = true then "Present " else "Not-present ")
                 ++ (if error_code.testBit 1 = true then "Write " else "Read ")
                 ++ (if error_code.testBit 2 = true then "User-mode" else "Kernel-mode")]
             else [])
            ["  EAX=0x" ++ hex8 (m.frames regs).eax, "  EBX=0x" ++ hex8 (m.frames regs).ebx,
             "  ECX=0x" ++ hex8 (m.frames regs).ecx, "  EDX=0x" ++ hex8 (m.frames regs).edx,
             "  ESI=0x" ++ hex8 (m.frames regs).esi, "  EDI=0x" ++ hex8 (m.frames regs).edi,
             "  EBP=0x" ++ hex8 (m.frames regs).ebp, "  ESP=0x" ++ hex8 (m.frames regs).esp]
            (eip / 65536) (m.frames regs).ds (m.frames regs).es (m.frames regs).fs
            (m.frames regs).gs
          ++ [""] := by
  refine ⟨report_name exc_num, ?_, ?_⟩
  · rw [calls_eq]
    simp [report, report_head, report_name]
  · rw [calls_eq, text_lines_report]
    rfl

set_option maxRecDepth 100000 in
/-- C13, as stated, fails: for exception 0, error code 0, EIP 0x00100234 and an
all-zero frame the text written does not contain "EIP: 0x00100234", so the five
parts of the claim do not hold together. The handler pads the label of the EIP
line with fourteen blanks. -/
theorem C13_scenario_counterexample :
    ¬ ("Divide by Zero".data <:+: (render (calls 0 0 0x100234 0
          (Machine.start 0 fun _ => registers.ofWords fun _ => 0))).data
        ∧ "Exception Number: 0x00000000".data <:+: (render (calls 0 0 0x100234 0
          (Machine.start 0 fun _ => registers.ofWords fun _ => 0))).data
        ∧ "EIP: 0x00100234".data <:+: (render (calls 0 0 0x100234 0
          (Machine.start 0 fun _ => registers.ofWords fun _ => 0))).data
        ∧ Call.vga_puts "Page fault: " ∉ calls 0 0 0x100234 0
          (Machine.start 0 fun _ => registers.ofWords fun _ => 0)
        ∧ (calls 0 0 0x100234 0
          (Machine.start 0 fun _ => registers.ofWords fun _ => 0)).getLast? = some .freeze) :=
  fun h => (by decide : ¬ "EIP: 0x00100234".data <:+: (render (calls 0 0 0x100234 0
    (Machine.start 0 fun _ => registers.ofWords fun _ => 0))).data) h.2.2.1

set_option maxRecDepth 100000 in
/-- C13, amended: for exception 0, error code 0, EIP 0x00100234 and an all-zero
frame, on every machine state, the text written (each `vga_print_hex` rendered
as 8 hex digits) contains "Divide by Zero", "Exception Number: 0x00000000" and
"EIP:              0x00100234" (the label as the handler pads it); it contains
neither "CR2 (fault addr): 0x" nor "Page fault: ", and neither label is
written; the last call is `freeze` and the run ends halted. -/
theorem C13_scenario_divide_by_zero (regs : Nat) (m : Machine)
    (h : m.frames regs = registers.ofWords fun _ => 0) :
    "Divide by Zero".data <:+: (render (calls 0 0 0x100234 regs m)).data
      ∧ "Exception Number: 0x00000000".data <:+: (render (calls 0 0 0x100234 regs m)).data
      ∧ "EIP:              0x00100234".data <:+: (render (calls 0 0 0x100234 regs m)).data
      ∧ ¬ "CR2 (fault addr): 0x".data <:+: (render (calls 0 0 0x100234 regs m)).data
      ∧ ¬ "Page fault: ".data <:+: (render (calls 0 0 0x100234 regs m)).data
      ∧ Call.vga_puts "CR2 (fault addr): 0x" ∉ calls 0 0 0x100234 regs m
      ∧ Call.vga_puts "Page fault: " ∉ calls 0 0 0x100234 regs m
      ∧ (calls 0 0 0x100234 regs m).getLast? = some .freeze
      ∧ ∃ m1, exception_handler 0 0 0x100234 regs m = .halted m1 := by
  have hc : calls 0 0 0x100234 regs m
      = report 0 0 0x100234 0 (registers.ofWords fun _ => 0) := by
    rw [calls_eq, h]
    simp [report]
  rw [hc]
  exact ⟨by decide, by decide, by decide, by decide, by decide, by decide, by decide,
    by decide, _, exception_handler_eq _ _ _ _ _⟩

/-- C13 on a fresh machine whose frames are all zero. -/
theorem C13_scenario_divide_by_zero_witness :
    "EIP:              0x00100234".data <:+: (render (calls 0 0 0x100234 0
        (Machine.start 0 fun _ => registers.ofWords fun _ => 0))).data
      ∧ (calls 0 0 0x100234 0
        (Machine.start 0 fun _ => registers.ofWords fun _ => 0)).getLast? = some .freeze :=
  have h := C13_scenario_divide_by_zero 0
    (Machine.start 0 fun _ => registers.ofWords fun _ => 0) rfl
  ⟨h.2.2.1, h.2.2.2.2.2.2.2.1⟩

/-- C14: for every exception number other than 14, the call that hands the
error code to `vga_print_hex` is call 9, directly after the label
"Error Code:       0x", and two runs that differ only in the error code make
the same calls except for that one: the calls of the run with `e1` are those of
the run with `e2` with call 9 replaced. -/
theorem C14_error_code_only_printed (exc_num e1 e2 eip regs : Nat) (m : Machine)
    (h : exc_num ≠ 14) :
    calls exc_num e1 eip regs m = (calls exc_num e2 eip regs m).set 9 (.vga_print_hex e1)
      ∧ (calls exc_num e1 eip regs m)[8]? = some (.vga_puts "Error Code:       0x")
      ∧ (calls exc_num e1 eip regs m)[9]? = some (.vga_print_hex e1)
      ∧ ∀ i, i ≠ 9 → (calls exc_num e1 eip regs m)[i]? = (calls exc_num e2 eip regs m)[i]? := by
  have hset : calls exc_num e1 eip regs m
      = (calls exc_num e2 eip regs m).set 9 (.vga_print_hex e1) := by
    rw [calls_eq, calls_eq]
    simp [report, report_head, report_tail, hex_line, h]
  refine ⟨hset, ?_, ?_, ?_⟩
  · rw [calls_eq]; simp [report, report_head, hex_line]
  · rw [calls_eq]; simp [report, report_head, hex_line]
  · intro i hi
    rw [hset, List.getElem?_set_ne (Ne.symm hi)]

/-- C14 at exception 13 with the error codes 0 and 0xFFFFFFFF. -/
theorem C14_error_code_only_printed_witness :
    calls 13 0 0x100234 0 (Machine.start 0 fun _ => registers.ofWords fun _ => 0)
      = (calls 13 0xFFFFFFFF 0x100234 0
          (Machine.start 0 fun _ => registers.ofWords fun _ => 0)).set 9 (.vga_print_hex 0) :=
  (C14_error_code_only_printed 13 0 0xFFFFFFFF 0x100234 0
    (Machine.start 0 fun _ => registers.ofWords fun _ => 0) (by decide)).1

/-- C15: for every input, the run of the handler leaves the memory of register
frames as it was: the frame at `regs` holds the same twelve values after the
report as before it, and so does every other frame. -/
theorem C15_snapshot_not_mutated (exc_num error_code eip regs : Nat) (m : Machine) :
    (exception_handler exc_num error_code eip regs m).machine.frames = m.frames
      ∧ ((exception_handler exc_num error_code eip regs m).machine.frames regs).gs
          = (m.frames regs).gs
      ∧ ((exception_handler exc_num error_code eip regs m).machine.frames regs).fs
          = (m.frames regs).fs
      ∧ ((exception_handler exc_num error_code eip regs m).machine.frames regs).es
          = (m.frames regs).es
      ∧ ((exception_handler exc_num error_code eip regs m).machine.frames regs).ds
          = (m.frames regs).ds
      ∧ ((exception_handler exc_num error_code eip regs m).machine.frames regs).edi
          = (m.frames regs).edi
      ∧ ((exception_handler exc_num error_code eip regs m).machine.frames regs).esi
          = (m.frames regs).esi
      ∧ ((exception_handler exc_num error_code eip regs m).machine.frames regs).ebp
          = (m.frames regs).ebp
      ∧ ((exception_handler exc_num error_code eip regs m).machine.frames regs).esp
          = (m.frames regs).esp
      ∧ ((exception_handler exc_num error_code eip regs m).machine.frames regs).ebx
          = (m.frames regs).ebx
      ∧ ((exception_handler exc_num error_code eip regs m).machine.frames regs).edx
          = (m.frames regs).edx
      ∧ ((exception_handler exc_num error_code eip regs m).machine.frames regs).ecx
          = (m.frames regs).ecx
      ∧ ((exception_handler exc_num error_code eip regs m).machine.frames regs).eax
          = (m.frames regs).eax := by
  have hf : (exception_handler exc_num error_code eip regs m).machine.frames = m.frames := by
    rw [exception_handler_eq]; rfl
  rw [hf]
  exact ⟨rfl, rfl, rfl, rfl, rfl, rfl, rfl, rfl, rfl, rfl, rfl, rfl, rfl⟩

/-- C16: in `exception_names` the entries at index 15 and at indices 20 to 31
are all "(Reserved)", and every index in 0-14 or 16-19 holds a name that is
neither "(Reserved)" nor "Unknown". -/
theorem C16_reserved_entries :
    (∀ i, i < 32 → (i = 15 ∨ 20 ≤ i) → exception_names[i]? = some "(Reserved)")
      ∧ (∀ i, i < 20 → i ≠ 15 →
          ∃ name, exception_names[i]? = some name ∧ name ≠ "(Reserved)" ∧ name ≠ "Unknown") := by
  constructor
  · decide
  · intro i hi h15
    have haux : ∀ i, i < 20 → i ≠ 15 →
        (exception_names[i]?).isSome = true ∧ exception_names[i]? ≠ some "(Reserved)"
          ∧ exception_names[i]? ≠ some "Unknown" := by decide
    obtain ⟨h1, h2, h3⟩ := haux i hi h15
    obtain ⟨name, hn⟩ := Option.isSome_iff_exists.mp h1
    exact ⟨name, hn, fun h => h2 (h ▸ hn), fun h => h3 (h ▸ hn)⟩

/-- In a report without page-fault block every hex value stands between a label
that ends in "0x" and a line break. -/
theorem hex_framed_other (exc_num error_code eip cr2 : Nat) (r : registers)
    (h14 : exc_num ≠ 14) (i v : Nat)
    (h : (report exc_num error_code eip cr2 r)[i]? = some (.vga_print_hex v)) :
    0 < i
      ∧ (∃ label, (report exc_num error_code eip cr2 r)[i - 1]? = some (.vga_puts label)
          ∧ "0x".data <:+ label.data)
      ∧ (report exc_num error_code eip cr2 r)[i + 1]? = some (.vga_puts "\n") := by
  have hlen := report_length exc_num error_code eip cr2 r
  rw [if_neg h14] at hlen
  have hi : i < 57 := by
    rw [← hlen]
    exact (List.getElem?_eq_some.mp h).1
  simp only [report, h14, if_false, List.append_nil, report_head, report_tail, hex_line,
    List.cons_append, List.nil_append, List.append_assoc] at h ⊢
  interval_cases i <;> simp at h ⊢ <;> decide

set_option maxHeartbeats 400000 in
/-- In a report with page-fault block every hex value stands between a label
that ends in "0x" and a line break. -/
theorem hex_framed_page_fault (error_code eip cr2 : Nat) (r : registers) (i v : Nat)
    (h : (report 14 error_code eip cr2 r)[i]? = some (.vga_print_hex v)) :
    0 < i
      ∧ (∃ label, (report 14 error_code eip cr2 r)[i - 1]? = some (.vga_puts label)
          ∧ "0x".data <:+ label.data)
      ∧ (report 14 error_code eip cr2 r)[i + 1]? = some (.vga_puts "\n") := by
  have hlen := report_length 14 error_code eip cr2 r
  rw [if_pos rfl] at hlen
  have hi : i < 65 := by
    rw [← hlen]
    exact (List.getElem?_eq_some.mp h).1
  simp only [report, if_true, report_head, report_page_fault, report_tail, hex_line,
    List.cons_append, List.nil_append, List.append_assoc] at h ⊢
  interval_cases i <;> simp at h ⊢ <;> decide

/-- C17: for every input, every call of `vga_print_hex` made by the handler
comes directly after a `vga_puts` of a label that ends in "0x" and directly
before a `vga_puts` of a line break; the handler calls `vga_print_hex` exactly
17 times when `exc_num` is 14 and exactly 16 times otherwise. -/
theorem C17_hex_calls_framed (exc_num error_code eip regs : Nat) (m : Machine) :
    (∀ i v, (calls exc_num error_code eip regs m)[i]? = some (.vga_print_hex v) →
        0 < i
        ∧ (∃ label, (calls exc_num error_code eip regs m)[i - 1]? = some (.vga_puts label)
            ∧ "0x".data <:+ label.data)
        ∧ (calls exc_num error_code eip regs m)[i + 1]? = some (.vga_puts "\n"))
      ∧ (hex_values (calls exc_num error_code eip regs m)).length
          = (if exc_num = 14 then 17 else 16) := by
  rw [calls_eq]
  constructor
  · intro i v h
    by_cases h14 : exc_num = 14
    · subst h14
      exact hex_framed_page_fault _ _ _ _ i v h
    · exact hex_framed_other _ _ _ _ _ h14 i v h
  · by_cases h14 : exc_num = 14 <;>
      simp [report, report_head, report_page_fault, report_tail, hex_line, hex_values, h14]

/-- C18: for exception 14, two error codes with the same remainder modulo 8
give the same page-fault line (calls 17 to 21), whatever their bits 3 to 31. -/
theorem C18_only_low_three_bits (e1 e2 eip regs : Nat) (m : Machine) (h : e1 % 8 = e2 % 8) :
    ((calls 14 e1 eip regs m).drop 17).take 5 = ((calls 14 e2 eip regs m).drop 17).take 5 := by
  rw [calls_eq, calls_eq]
  simp only [report, if_true, report_page_fault_bits,
    testBit_of_mod_eight e1 e2 0 (by decide) h, testBit_of_mod_eight e1 e2 1 (by decide) h,
    testBit_of_mod_eight e1 e2 2 (by decide) h]
  simp [report_head, hex_line]

/-- C18 at the error codes 7 and 0x1F, which differ in bits 3 (reserved bit) and
4 (instruction fetch): both give "Page fault: Present Write User-mode". -/
theorem C18_only_low_three_bits_witness :
    ((calls 14 7 0xC0001000 0
        (Machine.start 0xDEADBEEF fun _ => registers.ofWords fun _ => 0)).drop 17).take 5
      = ((calls 14 0x1F 0xC0001000 0
        (Machine.start 0xDEADBEEF fun _ => registers.ofWords fun _ => 0)).drop 17).take 5
      ∧ render (((calls 14 0x1F 0xC0001000 0
        (Machine.start 0xDEADBEEF fun _ => registers.ofWords fun _ => 0)).drop 17).take 5)
        = "Page fault: Present Write User-mode\n" :=
  ⟨C18_only_low_three_bits 7 0x1F 0xC0001000 0
      (Machine.start 0xDEADBEEF fun _ => registers.ofWords fun _ => 0) (by decide),
   by decide⟩

/-- C19: for two different exception numbers `i` and `j` among 0-14 and 16-19,
the entries of `exception_names` differ, and so do the names the handler writes
(call 3): two reports that show the same name of a non-reserved vector have the
same exception number. -/
theorem C19_names_identify_vector (i j : Nat) (hi : i < 20) (hj : j < 20) (hi15 : i ≠ 15)
    (hj15 : j ≠ 15) (hij : i ≠ j) :
    exception_names[i]? ≠ exception_names[j]?
      ∧ ∀ (e1 eip1 regs1 : Nat) (m1 : Machine) (e2 eip2 regs2 : Nat) (m2 : Machine),
          (calls i e1 eip1 regs1 m1)[3]? ≠ (calls j e2 eip2 regs2 m2)[3]? := by
  have hne := names_distinct i j hi hj hi15 hj15 hij
  refine ⟨hne, ?_⟩
  intro e1 eip1 regs1 m1 e2 eip2 regs2 m2 heq
  obtain ⟨n1, h1⟩ := exception_names_lookup i (by omega)
  obtain ⟨n2, h2⟩ := exception_names_lookup j (by omega)
  rw [calls_eq, calls_eq, report_name_call _ _ _ _ _ n1 h1,
    report_name_call _ _ _ _ _ n2 h2] at heq
  apply hne
  rw [h1, h2]
  exact congrArg some (Call.vga_puts.inj (Option.some.inj heq))

/-- C19 at the exception numbers 13 and 14. -/
theorem C19_names_identify_vector_witness :
    exception_names[13]? ≠ exception_names[14]?
      ∧ (calls 13 0 0x100234 0 (Machine.start 0 fun _ => registers.ofWords fun _ => 0))[3]?
        ≠ (calls 14 7 0xC0001000 0
            (Machine.start 0xDEADBEEF fun _ => registers.ofWords fun _ => 0))[3]? :=
  have h := C19_names_identify_vector 13 14 (by decide) (by decide) (by decide) (by decide)
    (by decide)
  ⟨h.1, h.2 0 0x100234 0 _ 7 0xC0001000 0 _⟩

end Panic
